import Mathlib

/-!
Verification of `src/ts/rowControllers/virtualPagination/virtualPageRowModel.ts`
(the `VirtualPageRowModel` orchestrator of ag-Grid's virtual pagination).

The row model holds an optional datasource and an optional live cache
(`VirtualPageCache`).  Every public operation is embedded as a pure function
from the model state (plus an environment record standing for the injected
collaborators `gridOptionsWrapper`, `filterManager`, `sortController`) to a
new state together with an ordered trace of observable effects
(selection reset, cache destruction/creation, event dispatch, console output).

The `VirtualPageCache` class itself is not part of the sources under
verification; where its behaviour matters it is modelled from the spec and
marked as such.
-/

namespace AgGrid

/-- A data row handed back by the row model.  `data = none` stands for a
placeholder row (pending / failed / out of range). -/
structure RowNode where
  rowIndex : Int
  data : Option Nat
  deriving DecidableEq, Repr

/-- The user-provided datasource object.  `getRowsBehaviour` stands in for the
opaque `getRows` callback; the four further fields are the deprecated
configuration fields that `checkForDeprecated` looks for on the (untyped)
datasource object.  `none` models a JS field that is `undefined`/absent. -/
structure IDataSource where
  getRowsBehaviour : Nat
  maxConcurrentRequests : Option Int
  maxPagesInCache : Option Int
  overflowSize : Option Int
  pageSize : Option Int
  deriving DecidableEq, Repr

/-- The collaborators the row model reads from: the relevant getters of
`gridOptionsWrapper` (a grid option that is unset in JS is `none`), and the
opaque filter/sort models obtained from `filterManager` / `sortController`. -/
structure GridEnv where
  maxConcurrentDatasourceRequests : Option Int
  paginationOverflowSize : Option Int
  paginationInitialRowCount : Option Int
  maxPagesInCache : Option Int
  paginationPageSize : Option Int
  rowHeightAsNumber : Int
  enableServerSideFilter : Bool
  enableServerSideSorting : Bool
  rowNodeIdFuncExists : Bool
  filterModel : Nat
  sortModel : Nat
  deriving DecidableEq, Repr

/-- The `CacheParams` object literal built in `resetCache` (fields in source
order; the `lastAccessedSequence` helper object carries no configuration and
is omitted).  A field holding `none` models a JS `undefined`. -/
structure CacheParams where
  datasource : Option IDataSource
  filterModel : Nat
  sortModel : Nat
  maxConcurrentDatasourceRequests : Option Int
  paginationOverflowSize : Option Int
  paginationInitialRowCount : Option Int
  maxPagesInCache : Option Int
  pageSize : Option Int
  rowHeight : Int
  deriving DecidableEq, Repr

/-- The JS test `value >= 1` on a possibly-`undefined` number: `undefined`
compares false, so `!(x >= 1)` holds exactly when `jsGe1 x = false`. -/
def jsGe1 : Option Int → Bool
  | some v => 1 ≤ v
  | none => false

/-- Events dispatched through the `eventService`. -/
inductive GridEvent where
  | modelUpdated
  deriving DecidableEq, Repr

/-- Observable side effects of the row model's operations, in the order they
happen. -/
inductive Effect where
  | selectionReset
  | cacheDestroyed
  | cacheCreated
  | dispatch (e : GridEvent)
  | consoleError (msg : String)
  | consoleLog (msg : String)
  deriving DecidableEq, Repr

/-- Modelled from the spec: the state of a freshly constructed
`VirtualPageCache` (`CacheEngine` in the spec); the class is not among the
sources under verification.  It keeps its construction-time configuration
snapshot, a mapping of loaded absolute row indices to rows (empty pages at
construction), the row-count estimate, the in-flight request counter and the
destroyed flag. -/
structure VirtualPageCache where
  cacheParams : CacheParams
  loadedRows : List (Int × RowNode)
  rowCountEstimate : Int
  activeRequestCount : Int
  destroyed : Bool
  deriving DecidableEq, Repr

/-- Modelled from the spec: `new VirtualPageCache(cacheSettings)` — empty
pages, row-count estimate starting at the configured initial row count
(0 when unset), no requests in flight, not destroyed. -/
def mkVirtualPageCache (cacheSettings : CacheParams) : VirtualPageCache :=
  { cacheParams := cacheSettings
    loadedRows := []
    rowCountEstimate := cacheSettings.paginationInitialRowCount.getD 0
    activeRequestCount := 0
    destroyed := false }

/-- Modelled from the spec: the cache's `getRow` returns the loaded row, or a
placeholder row for an index with no loaded data. -/
def VirtualPageCache.getRow (c : VirtualPageCache) (rowIndex : Int) : RowNode :=
  match c.loadedRows.lookup rowIndex with
  | some r => r
  | none => { rowIndex := rowIndex, data := none }

/-- Modelled from the spec: the cache's row count is its estimate. -/
def VirtualPageCache.getRowCount (c : VirtualPageCache) : Int :=
  c.rowCountEstimate

/-- Modelled from the spec: combined height is estimate times row height. -/
def VirtualPageCache.getRowCombinedHeight (c : VirtualPageCache) : Int :=
  c.rowCountEstimate * c.cacheParams.rowHeight

/-- Modelled from the spec: pixel-to-index mapping, clamped to the estimate,
`-1` when the estimate is zero. -/
def VirtualPageCache.getRowIndexAtPixel (c : VirtualPageCache) (pixel : Int) : Int :=
  if c.rowCountEstimate = 0 then -1
  else max 0 (min (pixel / c.cacheParams.rowHeight) (c.rowCountEstimate - 1))

/-- Modelled from the spec: `forEachNode` visits indices
`0 .. rowCountEstimate - 1` in order; the returned list is the sequence of
`(row, index)` arguments passed to the callback. -/
def VirtualPageCache.forEachNodeCalls (c : VirtualPageCache) : List (RowNode × Int) :=
  (List.range c.rowCountEstimate.toNat).map (fun i => (c.getRow (Int.ofNat i), Int.ofNat i))

/-- Modelled from the spec: `destroy` flags the cache so pending completions
become no-ops and drops its pages. -/
def VirtualPageCache.destroy (c : VirtualPageCache) : VirtualPageCache :=
  { c with destroyed := true, loadedRows := [] }

/-- The mutable fields of `VirtualPageRowModel`: the live cache (if any) and
the datasource (if any). -/
structure ModelState where
  virtualPageCache : Option VirtualPageCache
  datasource : Option IDataSource
  deriving DecidableEq, Repr

namespace VirtualPageRowModel

/-- `isEmpty`: true when no cache exists (`_.missing(this.virtualPageCache)`). -/
def isEmpty (s : ModelState) : Bool :=
  s.virtualPageCache.isNone

/-- `isRowsToRender`: true when a cache exists. -/
def isRowsToRender (s : ModelState) : Bool :=
  s.virtualPageCache.isSome

/-- The `cacheSettings` object computed at the top of `resetCache`
(lines 131-171): a snapshot of the grid options plus the four defaulting
`if` statements, in source order. -/
def resetCacheSettings (env : GridEnv) (datasource : Option IDataSource) : CacheParams :=
  let cacheSettings : CacheParams :=
    { datasource := datasource
      filterModel := env.filterModel
      sortModel := env.sortModel
      maxConcurrentDatasourceRequests := env.maxConcurrentDatasourceRequests
      paginationOverflowSize := env.paginationOverflowSize
      paginationInitialRowCount := env.paginationInitialRowCount
      maxPagesInCache := env.maxPagesInCache
      pageSize := env.paginationPageSize
      rowHeight := env.rowHeightAsNumber }
  -- if ( !(cacheSettings.maxConcurrentDatasourceRequests>=1) ) { ... = 2 }
  let cacheSettings :=
    if jsGe1 cacheSettings.maxConcurrentDatasourceRequests then cacheSettings
    else { cacheSettings with maxConcurrentDatasourceRequests := some 2 }
  -- if ( !(cacheSettings.pageSize>=1) ) { ... = 100 }
  let cacheSettings :=
    if jsGe1 cacheSettings.pageSize then cacheSettings
    else { cacheSettings with pageSize := some 100 }
  -- if ( !(cacheSettings.paginationInitialRowCount>=1) ) { ... = 0 }
  let cacheSettings :=
    if jsGe1 cacheSettings.paginationInitialRowCount then cacheSettings
    else { cacheSettings with paginationInitialRowCount := some 0 }
  -- if ( !(cacheSettings.paginationOverflowSize>=1) ) { ... = 1 }
  let cacheSettings :=
    if jsGe1 cacheSettings.paginationOverflowSize then cacheSettings
    else { cacheSettings with paginationOverflowSize := some 1 }
  cacheSettings

/-- `resetCache` (lines 130-180): build the settings snapshot, destroy the
old cache when one exists, install a freshly constructed cache. -/
def resetCache (env : GridEnv) (s : ModelState) : ModelState × List Effect :=
  let cacheSettings := resetCacheSettings env s.datasource
  let destroyTrace :=
    match s.virtualPageCache with
    | some _ => [Effect.cacheDestroyed]
    | none => []
  ({ s with virtualPageCache := some (mkVirtualPageCache cacheSettings) },
    destroyTrace ++ [Effect.cacheCreated])

/-- `reset` (lines 110-128): early return when no datasource; otherwise clear
the selection unless the user supplies a row-id function, reset the cache,
then dispatch `EVENT_MODEL_UPDATED`. -/
def reset (env : GridEnv) (s : ModelState) : ModelState × List Effect :=
  match s.datasource with
  | none => (s, [])
  | some _ =>
    let userGeneratingRows := env.rowNodeIdFuncExists
    let selectionTrace := if userGeneratingRows then [] else [Effect.selectionReset]
    let r := resetCache env s
    (r.1, selectionTrace ++ r.2 ++ [Effect.dispatch GridEvent.modelUpdated])

/-- `checkForDeprecated` (lines 82-100): one `console.error` per deprecated
field present on the datasource object, in source order. -/
def checkForDeprecatedTrace (ds : IDataSource) : List Effect :=
  (if ds.maxConcurrentRequests.isSome then
    [Effect.consoleError "ag-Grid: since version 5.1.x, maxConcurrentRequests is replaced with grid property maxConcurrentDatasourceRequests"]
  else []) ++
  (if ds.maxPagesInCache.isSome then
    [Effect.consoleError "ag-Grid: since version 5.1.x, maxPagesInCache is replaced with grid property maxPagesInPaginationCache"]
  else []) ++
  (if ds.overflowSize.isSome then
    [Effect.consoleError "ag-Grid: since version 5.1.x, overflowSize is replaced with grid property paginationOverflowSize"]
  else []) ++
  (if ds.pageSize.isSome then
    [Effect.consoleError "ag-Grid: since version 5.1.x, pageSize is replaced with grid property paginationPageSize"]
  else [])

/-- `setDatasource` (lines 72-80): store the datasource; when it is valid,
check for deprecated fields and reset. -/
def setDatasource (env : GridEnv) (s : ModelState) (datasource : Option IDataSource) :
    ModelState × List Effect :=
  let s1 : ModelState := { s with datasource := datasource }
  match datasource with
  | none => (s1, [])
  | some ds =>
    let depTrace := checkForDeprecatedTrace ds
    let r := reset env s1
    (r.1, depTrace ++ r.2)

/-- `onFilterChanged` (lines 51-55). -/
def onFilterChanged (env : GridEnv) (s : ModelState) : ModelState × List Effect :=
  if env.enableServerSideFilter then reset env s else (s, [])

/-- `onSortChanged` (lines 57-61). -/
def onSortChanged (env : GridEnv) (s : ModelState) : ModelState × List Effect :=
  if env.enableServerSideSorting then reset env s else (s, [])

/-- `getRow` (lines 182-184): delegate to the cache, `null` when none. -/
def getRow (s : ModelState) (rowIndex : Int) : Option RowNode :=
  match s.virtualPageCache with
  | some c => some (c.getRow rowIndex)
  | none => none

/-- `forEachNode` (lines 186-190): the `(row, index)` invocations of the
callback; none when no cache exists. -/
def forEachNodeCalls (s : ModelState) : List (RowNode × Int) :=
  match s.virtualPageCache with
  | some c => c.forEachNodeCalls
  | none => []

/-- `getRowCombinedHeight` (lines 192-194). -/
def getRowCombinedHeight (s : ModelState) : Int :=
  match s.virtualPageCache with
  | some c => c.getRowCombinedHeight
  | none => 0

/-- `getRowIndexAtPixel` (lines 196-198). -/
def getRowIndexAtPixel (s : ModelState) (pixel : Int) : Int :=
  match s.virtualPageCache with
  | some c => c.getRowIndexAtPixel pixel
  | none => -1

/-- `getRowCount` (lines 200-202). -/
def getRowCount (s : ModelState) : Int :=
  match s.virtualPageCache with
  | some c => c.getRowCount
  | none => 0

/-- `insertItemsAtIndex` (lines 204-206): only logs. -/
def insertItemsAtIndex (s : ModelState) (index : Int) (items : List Nat) :
    ModelState × List Effect :=
  (s, [Effect.consoleLog "not yet supported"])

/-- `removeItems` (lines 208-210): only logs. -/
def removeItems (s : ModelState) (rowNodes : List RowNode) : ModelState × List Effect :=
  (s, [Effect.consoleLog "not yet supported"])

/-- `addItems` (lines 212-214): only logs. -/
def addItems (s : ModelState) (items : List Nat) : ModelState × List Effect :=
  (s, [Effect.consoleLog "not yet supported"])

end VirtualPageRowModel

/-- Recognizer for event-dispatch effects. -/
def isDispatchEffect : Effect → Bool
  | Effect.dispatch _ => true
  | _ => false

/-- Recognizer for console-error effects. -/
def isConsoleErrorEffect : Effect → Bool
  | Effect.consoleError _ => true
  | _ => false

/-! ### Sample data for concrete evaluations -/

/-- A grid environment with every pagination option unset, both server-side
modes off, no row-id function, row height 20, opaque filter/sort models 0. -/
def defaultEnv : GridEnv :=
  { maxConcurrentDatasourceRequests := none
    paginationOverflowSize := none
    paginationInitialRowCount := none
    maxPagesInCache := none
    paginationPageSize := none
    rowHeightAsNumber := 20
    enableServerSideFilter := false
    enableServerSideSorting := false
    rowNodeIdFuncExists := false
    filterModel := 0
    sortModel := 0 }

/-- A datasource carrying none of the deprecated configuration fields. -/
def plainDatasource (k : Nat) : IDataSource :=
  { getRowsBehaviour := k
    maxConcurrentRequests := none
    maxPagesInCache := none
    overflowSize := none
    pageSize := none }

/-- A model state holding a datasource but no cache yet. -/
def freshStateWith (k : Nat) : ModelState :=
  { virtualPageCache := none, datasource := some (plainDatasource k) }

/-- A cache as an earlier reset would have built it, for states that already
hold a live cache. -/
def staleCache : VirtualPageCache :=
  mkVirtualPageCache
    { datasource := none, filterModel := 7, sortModel := 7,
      maxConcurrentDatasourceRequests := some 1, paginationOverflowSize := some 1,
      paginationInitialRowCount := some 3, maxPagesInCache := none,
      pageSize := some 50, rowHeight := 20 }

/-- A model state holding both a live cache and a datasource. -/
def staleCachedState : ModelState :=
  { virtualPageCache := some staleCache, datasource := some (plainDatasource 1) }

/-! ### Helper lemmas -/

namespace VirtualPageRowModel

/-- The value a defaulted setting ends up with: kept when it passes the JS
test `value >= 1`, replaced by the default otherwise. -/
def settingOrDefault (v : Option Int) (d : Int) : Option Int :=
  if jsGe1 v then v else some d

/-- Closed form of the `resetCache` settings snapshot: each of the four
defaulted fields is `settingOrDefault` of the corresponding grid option;
the remaining fields are copied from the environment unchanged. -/
theorem resetCacheSettings_eq (env : GridEnv) (ds : Option IDataSource) :
    resetCacheSettings env ds =
      { datasource := ds
        filterModel := env.filterModel
        sortModel := env.sortModel
        maxConcurrentDatasourceRequests :=
          settingOrDefault env.maxConcurrentDatasourceRequests 2
        paginationOverflowSize := settingOrDefault env.paginationOverflowSize 1
        paginationInitialRowCount := settingOrDefault env.paginationInitialRowCount 0
        maxPagesInCache := env.maxPagesInCache
        pageSize := settingOrDefault env.paginationPageSize 100
        rowHeight := env.rowHeightAsNumber } := by
  unfold resetCacheSettings settingOrDefault
  cases h1 : jsGe1 env.maxConcurrentDatasourceRequests <;>
    cases h2 : jsGe1 env.paginationPageSize <;>
      cases h3 : jsGe1 env.paginationInitialRowCount <;>
        cases h4 : jsGe1 env.paginationOverflowSize <;>
          simp [h1, h2, h3, h4]

theorem settingOrDefault_of_ge1 (v : Int) (d : Int) (h : 1 ≤ v) :
    settingOrDefault (some v) d = some v := by
  simp [settingOrDefault, jsGe1, h]

theorem settingOrDefault_of_invalid (v : Option Int) (d : Int) (h : jsGe1 v = false) :
    settingOrDefault v d = some d := by
  simp [settingOrDefault, h]

end VirtualPageRowModel

/-! ### Claim theorems -/

open VirtualPageRowModel

/-- C1: in the settings snapshot built at each reset, `pageSize` falls back
to 100, `maxConcurrentDatasourceRequests` to 2, `paginationOverflowSize` to 1
and `paginationInitialRowCount` to 0 exactly when the supplied grid option
fails the `>= 1` test (an unset option fails it too); a supplied value that is
`>= 1` is placed in the snapshot unchanged. -/
theorem reset_snapshot_defaults_four_fields (env : GridEnv) (ds : Option IDataSource) :
    ((jsGe1 env.paginationPageSize = false →
        (resetCacheSettings env ds).pageSize = some 100) ∧
      (∀ v : Int, env.paginationPageSize = some v → 1 ≤ v →
        (resetCacheSettings env ds).pageSize = some v)) ∧
    ((jsGe1 env.maxConcurrentDatasourceRequests = false →
        (resetCacheSettings env ds).maxConcurrentDatasourceRequests = some 2) ∧
      (∀ v : Int, env.maxConcurrentDatasourceRequests = some v → 1 ≤ v →
        (resetCacheSettings env ds).maxConcurrentDatasourceRequests = some v)) ∧
    ((jsGe1 env.paginationOverflowSize = false →
        (resetCacheSettings env ds).paginationOverflowSize = some 1) ∧
      (∀ v : Int, env.paginationOverflowSize = some v → 1 ≤ v →
        (resetCacheSettings env ds).paginationOverflowSize = some v)) ∧
    ((jsGe1 env.paginationInitialRowCount = false →
        (resetCacheSettings env ds).paginationInitialRowCount = some 0) ∧
      (∀ v : Int, env.paginationInitialRowCount = some v → 1 ≤ v →
        (resetCacheSettings env ds).paginationInitialRowCount = some v)) := by
  rw [resetCacheSettings_eq]
  refine ⟨⟨?_, ?_⟩, ⟨?_, ?_⟩, ⟨?_, ?_⟩, ⟨?_, ?_⟩⟩ <;>
    first
      | (intro h; simp [settingOrDefault_of_invalid _ _ h])
      | (intro v hv h; simp [hv, settingOrDefault_of_ge1 _ _ h])

/-- Witness for C1 at a concrete environment: `pageSize` unset is replaced by
100, while a supplied `maxConcurrentDatasourceRequests = 4` is kept. -/
theorem reset_snapshot_defaults_four_fields_witness :
    (jsGe1 (none : Option Int) = false ∧
      (resetCacheSettings
        { maxConcurrentDatasourceRequests := some 4
          paginationOverflowSize := some 0
          paginationInitialRowCount := none
          maxPagesInCache := none
          paginationPageSize := none
          rowHeightAsNumber := 20
          enableServerSideFilter := false
          enableServerSideSorting := false
          rowNodeIdFuncExists := false
          filterModel := 0
          sortModel := 0 } none).pageSize = some 100) ∧
    (resetCacheSettings
        { maxConcurrentDatasourceRequests := some 4
          paginationOverflowSize := some 0
          paginationInitialRowCount := none
          maxPagesInCache := none
          paginationPageSize := none
          rowHeightAsNumber := 20
          enableServerSideFilter := false
          enableServerSideSorting := false
          rowNodeIdFuncExists := false
          filterModel := 0
          sortModel := 0 } none).maxConcurrentDatasourceRequests = some 4 := by
  refine ⟨⟨by decide, ?_⟩, ?_⟩
  · exact (reset_snapshot_defaults_four_fields _ none).1.1 (by decide)
  · exact (reset_snapshot_defaults_four_fields _ none).2.1.2 4 rfl (by decide)

/-- Modelled from the spec: how the cache (`VirtualPageCache`, not among the
sources under verification) interprets the `maxPagesInCache` field of its
settings snapshot — a value `>= 1` bounds the page count, any other value
(including unset) means unbounded (`none`). -/
def effectiveMaxPagesInCache (v : Option Int) : Option Int :=
  match v with
  | some n => if 1 ≤ n then some n else none
  | none => none

/-- C2: an out-of-range `maxPagesInCache` (not `>= 1`, unset included) is
passed through the snapshot and means "unbounded" to the cache; the reset
still completes, installing a cache and raising no error output. -/
theorem maxPagesInCache_invalid_means_unbounded (env : GridEnv) (s : ModelState)
    (ds : IDataSource) (hinv : jsGe1 env.maxPagesInCache = false)
    (hds : s.datasource = some ds) :
    effectiveMaxPagesInCache (resetCacheSettings env s.datasource).maxPagesInCache = none ∧
    ((reset env s).1.virtualPageCache =
      some (mkVirtualPageCache (resetCacheSettings env s.datasource))) ∧
    (∀ m : String, Effect.consoleError m ∉ (reset env s).2) := by
  have hfield : (resetCacheSettings env s.datasource).maxPagesInCache = env.maxPagesInCache := by
    rw [resetCacheSettings_eq]
  refine ⟨?_, ?_, ?_⟩
  · rw [hfield]
    cases h : env.maxPagesInCache with
    | none => simp [effectiveMaxPagesInCache]
    | some n =>
      have : ¬ (1 ≤ n) := by
        intro hle
        rw [h] at hinv
        simp [jsGe1, hle] at hinv
      simp [effectiveMaxPagesInCache, this]
  · simp [reset, hds, resetCache]
  · intro m
    simp only [reset, hds, resetCache]
    cases env.rowNodeIdFuncExists <;> cases s.virtualPageCache <;> simp

/-- Witness for C2: `maxPagesInCache = some 0` on a state holding a
datasource. -/
theorem maxPagesInCache_invalid_means_unbounded_witness :
    jsGe1 (some (0 : Int)) = false ∧
    ({ virtualPageCache := none, datasource := some ⟨0, none, none, none, none⟩ } :
        ModelState).datasource = some ⟨0, none, none, none, none⟩ ∧
    effectiveMaxPagesInCache
      (resetCacheSettings
        { maxConcurrentDatasourceRequests := none
          paginationOverflowSize := none
          paginationInitialRowCount := none
          maxPagesInCache := some 0
          paginationPageSize := none
          rowHeightAsNumber := 20
          enableServerSideFilter := false
          enableServerSideSorting := false
          rowNodeIdFuncExists := false
          filterModel := 0
          sortModel := 0 }
        ({ virtualPageCache := none, datasource := some ⟨0, none, none, none, none⟩ } :
          ModelState).datasource).maxPagesInCache = none := by
  refine ⟨by decide, rfl, ?_⟩
  exact (maxPagesInCache_invalid_means_unbounded _ _ ⟨0, none, none, none, none⟩
    (by decide) rfl).1

/-- C3: with no datasource set (hence no cache), every public operation is a
no-op: `getRow` yields `null` at every index, `getRowCount` is 0,
`getRowCombinedHeight` is 0, `getRowIndexAtPixel` is `-1` at every pixel,
`forEachNode` performs no callback invocation, and `reset` — also when
reached through a filter- or sort-changed event — leaves the state unchanged
and produces no effect. -/
theorem no_datasource_operations_are_noops (env : GridEnv) (s : ModelState)
    (hcache : s.virtualPageCache = none) (hds : s.datasource = none) :
    (∀ i : Int, getRow s i = none) ∧
    getRowCount s = 0 ∧
    getRowCombinedHeight s = 0 ∧
    (∀ p : Int, getRowIndexAtPixel s p = -1) ∧
    forEachNodeCalls s = [] ∧
    reset env s = (s, []) ∧
    onFilterChanged env s = (s, []) ∧
    onSortChanged env s = (s, []) := by
  have hreset : reset env s = (s, []) := by simp [reset, hds]
  refine ⟨?_, ?_, ?_, ?_, ?_, hreset, ?_, ?_⟩
  · intro i; simp [getRow, hcache]
  · simp [getRowCount, hcache]
  · simp [getRowCombinedHeight, hcache]
  · intro p; simp [getRowIndexAtPixel, hcache]
  · simp [forEachNodeCalls, hcache]
  · cases h : env.enableServerSideFilter <;> simp [onFilterChanged, h, hreset]
  · cases h : env.enableServerSideSorting <;> simp [onSortChanged, h, hreset]

/-- Witness for C3: the pristine state under a concrete environment. -/
theorem no_datasource_operations_are_noops_witness :
    ({ virtualPageCache := none, datasource := none } : ModelState).virtualPageCache = none ∧
    getRow { virtualPageCache := none, datasource := none } 5 = none ∧
    getRowCount { virtualPageCache := none, datasource := none } = 0 ∧
    reset
      { maxConcurrentDatasourceRequests := none
        paginationOverflowSize := none
        paginationInitialRowCount := none
        maxPagesInCache := none
        paginationPageSize := none
        rowHeightAsNumber := 20
        enableServerSideFilter := true
        enableServerSideSorting := true
        rowNodeIdFuncExists := false
        filterModel := 0
        sortModel := 0 }
      { virtualPageCache := none, datasource := none } =
      ({ virtualPageCache := none, datasource := none }, []) := by
  have h := no_datasource_operations_are_noops
    { maxConcurrentDatasourceRequests := none
      paginationOverflowSize := none
      paginationInitialRowCount := none
      maxPagesInCache := none
      paginationPageSize := none
      rowHeightAsNumber := 20
      enableServerSideFilter := true
      enableServerSideSorting := true
      rowNodeIdFuncExists := false
      filterModel := 0
      sortModel := 0 }
    { virtualPageCache := none, datasource := none } rfl rfl
  exact ⟨rfl, h.1 5, h.2.1, h.2.2.2.2.2.1⟩

/-- C4: a reset with a datasource present replaces the cache wholesale: the
old cache (when one exists) is destroyed, the new cache is built purely from
the fresh settings snapshot with no loaded-row state, and the installed cache
is the same whatever the previous cache was. -/
theorem reset_replaces_cache_wholesale (env : GridEnv) (s : ModelState) (ds : IDataSource)
    (h : s.datasource = some ds) :
    ((reset env s).1.virtualPageCache =
      some (mkVirtualPageCache (resetCacheSettings env (some ds)))) ∧
    (∀ c : VirtualPageCache, s.virtualPageCache = some c →
      Effect.cacheDestroyed ∈ (reset env s).2) ∧
    ((mkVirtualPageCache (resetCacheSettings env (some ds))).loadedRows = [] ∧
      (mkVirtualPageCache (resetCacheSettings env (some ds))).rowCountEstimate =
        (resetCacheSettings env (some ds)).paginationInitialRowCount.getD 0) ∧
    (∀ s2 : ModelState, s2.datasource = some ds →
      (reset env s2).1.virtualPageCache = (reset env s).1.virtualPageCache) := by
  refine ⟨?_, ?_, ⟨rfl, rfl⟩, ?_⟩
  · simp [reset, h, resetCache]
  · intro c hc
    cases hid : env.rowNodeIdFuncExists <;> simp [reset, h, resetCache, hc, hid]
  · intro s2 h2
    simp [reset, h, h2, resetCache]

/-- Witness for C4: resetting a state that already holds a cache. -/
theorem reset_replaces_cache_wholesale_witness :
    staleCachedState.datasource = some (plainDatasource 1) ∧
    (reset defaultEnv staleCachedState).1.virtualPageCache =
      some (mkVirtualPageCache (resetCacheSettings defaultEnv (some (plainDatasource 1)))) := by
  exact ⟨rfl,
    (reset_replaces_cache_wholesale defaultEnv staleCachedState (plainDatasource 1) rfl).1⟩

/-- C5: a reset with a datasource present dispatches exactly one event — the
"model updated" notification — and dispatches it after the new cache has been
installed (the dispatch closes the trace, the cache creation precedes it). -/
theorem reset_dispatches_one_model_updated (env : GridEnv) (s : ModelState) (ds : IDataSource)
    (h : s.datasource = some ds) :
    (reset env s).2.filter isDispatchEffect = [Effect.dispatch GridEvent.modelUpdated] ∧
    (∃ pre : List Effect,
      (reset env s).2 = pre ++ [Effect.dispatch GridEvent.modelUpdated] ∧
      Effect.cacheCreated ∈ pre) := by
  constructor
  · cases hid : env.rowNodeIdFuncExists <;> cases hc : s.virtualPageCache <;>
      simp [reset, h, resetCache, hid, hc, isDispatchEffect]
  · cases hid : env.rowNodeIdFuncExists with
    | false =>
      cases hc : s.virtualPageCache with
      | none =>
        refine ⟨[Effect.selectionReset, Effect.cacheCreated], ?_, by simp⟩
        simp [reset, h, resetCache, hid, hc]
      | some c =>
        refine ⟨[Effect.selectionReset, Effect.cacheDestroyed, Effect.cacheCreated],
          ?_, by simp⟩
        simp [reset, h, resetCache, hid, hc]
    | true =>
      cases hc : s.virtualPageCache with
      | none =>
        refine ⟨[Effect.cacheCreated], ?_, by simp⟩
        simp [reset, h, resetCache, hid, hc]
      | some c =>
        refine ⟨[Effect.cacheDestroyed, Effect.cacheCreated], ?_, by simp⟩
        simp [reset, h, resetCache, hid, hc]

/-- Witness for C5 on a state with no previous cache, row-id function
supplied. -/
theorem reset_dispatches_one_model_updated_witness :
    (freshStateWith 2).datasource = some (plainDatasource 2) ∧
    (reset { defaultEnv with rowNodeIdFuncExists := true }
        (freshStateWith 2)).2.filter isDispatchEffect =
      [Effect.dispatch GridEvent.modelUpdated] := by
  exact ⟨rfl, (reset_dispatches_one_model_updated { defaultEnv with rowNodeIdFuncExists := true }
    (freshStateWith 2) (plainDatasource 2) rfl).1⟩

/-- C6: on a reset that proceeds (datasource present), the selection is
cleared exactly when no row-id function is supplied; with a row-id function
supplied the selection controller is left untouched. -/
theorem reset_selection_preservation (env : GridEnv) (s : ModelState) (ds : IDataSource)
    (h : s.datasource = some ds) :
    (env.rowNodeIdFuncExists = true → Effect.selectionReset ∉ (reset env s).2) ∧
    (env.rowNodeIdFuncExists = false → Effect.selectionReset ∈ (reset env s).2) := by
  constructor
  · intro hid
    cases hc : s.virtualPageCache <;> simp [reset, h, resetCache, hid, hc]
  · intro hid
    cases hc : s.virtualPageCache <;> simp [reset, h, resetCache, hid, hc]

/-- Witness for C6: with a row-id function the trace holds no selection
reset; without one it does. -/
theorem reset_selection_preservation_witness :
    (freshStateWith 3).datasource = some (plainDatasource 3) ∧
    Effect.selectionReset ∉
      (reset { defaultEnv with rowNodeIdFuncExists := true } (freshStateWith 3)).2 ∧
    Effect.selectionReset ∈ (reset defaultEnv (freshStateWith 3)).2 := by
  refine ⟨rfl, ?_, ?_⟩
  · exact (reset_selection_preservation { defaultEnv with rowNodeIdFuncExists := true }
      (freshStateWith 3) (plainDatasource 3) rfl).1 rfl
  · exact (reset_selection_preservation defaultEnv
      (freshStateWith 3) (plainDatasource 3) rfl).2 rfl

/-- C7: the cache installed by a reset carries the settings snapshotted from
the grid options at that reset; the snapshot is taken only there, so a cache
living in the state keeps its settings whatever the options later say, and an
option change is picked up exactly by the next reset, which installs a cache
snapshotted from the new options. -/
theorem cache_settings_snapshot_once (env1 env2 : GridEnv) (s : ModelState)
    (ds : IDataSource) (h : s.datasource = some ds) :
    (∀ c : VirtualPageCache, (reset env1 s).1.virtualPageCache = some c →
      c.cacheParams = resetCacheSettings env1 (some ds)) ∧
    ((reset env2 (reset env1 s).1).1.virtualPageCache =
      some (mkVirtualPageCache (resetCacheSettings env2 (some ds)))) := by
  have hfst : (reset env1 s).1 =
      { virtualPageCache := some (mkVirtualPageCache (resetCacheSettings env1 (some ds)))
        datasource := some ds } := by
    simp [reset, h, resetCache]
  constructor
  · intro c hc
    rw [hfst] at hc
    cases hc
    rfl
  · rw [hfst]
    simp [reset, resetCache]

/-- Witness for C7: two environments differing in `paginationPageSize`. -/
theorem cache_settings_snapshot_once_witness :
    (freshStateWith 4).datasource = some (plainDatasource 4) ∧
    (reset { defaultEnv with paginationPageSize := some 200 }
        (reset { defaultEnv with paginationPageSize := some 50 }
          (freshStateWith 4)).1).1.virtualPageCache =
      some (mkVirtualPageCache
        (resetCacheSettings { defaultEnv with paginationPageSize := some 200 }
          (some (plainDatasource 4)))) := by
  exact ⟨rfl, (cache_settings_snapshot_once
    { defaultEnv with paginationPageSize := some 50 }
    { defaultEnv with paginationPageSize := some 200 }
    (freshStateWith 4) (plainDatasource 4) rfl).2⟩

/-- C8: a filter-changed event resets the cache exactly when server-side
filtering is enabled, a sort-changed event exactly when server-side sorting
is enabled; with the mode disabled the handler returns the state unchanged
with no effect, with it enabled the handler behaves as `reset` and (with a
datasource present) installs a freshly snapshotted cache. -/
theorem filter_sort_events_gate_reset (env : GridEnv) (s : ModelState) :
    (env.enableServerSideFilter = false → onFilterChanged env s = (s, [])) ∧
    (env.enableServerSideFilter = true → onFilterChanged env s = reset env s) ∧
    (env.enableServerSideSorting = false → onSortChanged env s = (s, [])) ∧
    (env.enableServerSideSorting = true → onSortChanged env s = reset env s) ∧
    (∀ ds : IDataSource, env.enableServerSideFilter = true → s.datasource = some ds →
      (onFilterChanged env s).1.virtualPageCache =
        some (mkVirtualPageCache (resetCacheSettings env (some ds)))) ∧
    (∀ ds : IDataSource, env.enableServerSideSorting = true → s.datasource = some ds →
      (onSortChanged env s).1.virtualPageCache =
        some (mkVirtualPageCache (resetCacheSettings env (some ds)))) := by
  refine ⟨?_, ?_, ?_, ?_, ?_, ?_⟩
  · intro h; simp [onFilterChanged, h]
  · intro h; simp [onFilterChanged, h]
  · intro h; simp [onSortChanged, h]
  · intro h; simp [onSortChanged, h]
  · intro ds h hds; simp [onFilterChanged, h, reset, hds, resetCache]
  · intro ds h hds; simp [onSortChanged, h, reset, hds, resetCache]

/-- Witness for C8: disabled filter mode is inert, enabled sort mode resets. -/
theorem filter_sort_events_gate_reset_witness :
    onFilterChanged defaultEnv (freshStateWith 5) = (freshStateWith 5, []) ∧
    onSortChanged { defaultEnv with enableServerSideSorting := true } (freshStateWith 5) =
      reset { defaultEnv with enableServerSideSorting := true } (freshStateWith 5) := by
  refine ⟨?_, ?_⟩
  · exact (filter_sort_events_gate_reset defaultEnv (freshStateWith 5)).1 rfl
  · exact (filter_sort_events_gate_reset
      { defaultEnv with enableServerSideSorting := true } (freshStateWith 5)).2.2.2.1 rfl

/-- Nothing survives the non-console filter of a deprecation trace: every
effect `checkForDeprecated` produces is a `console.error`. -/
theorem checkForDeprecatedTrace_console_only (ds : IDataSource) :
    (checkForDeprecatedTrace ds).filter (fun e => !(isConsoleErrorEffect e)) = [] := by
  unfold checkForDeprecatedTrace
  cases ds.maxConcurrentRequests <;> cases ds.maxPagesInCache <;>
    cases ds.overflowSize <;> cases ds.pageSize <;>
      simp [isConsoleErrorEffect]

/-- C9: the deprecated fields on the datasource object never reach the
cache's configuration: the settings snapshot does not depend on the
datasource's deprecated fields at all, every effect of the deprecation check
is a console diagnostic, and two `setDatasource` calls whose datasources
agree on `getRows` behaviour produce the same state shape and the same
effect trace once console diagnostics are removed. -/
theorem deprecated_fields_never_influence_cache (env : GridEnv) (s : ModelState)
    (ds1 ds2 : IDataSource) (h : ds1.getRowsBehaviour = ds2.getRowsBehaviour) :
    ((resetCacheSettings env (some ds1)).pageSize =
        (resetCacheSettings env (some ds2)).pageSize ∧
      (resetCacheSettings env (some ds1)).maxConcurrentDatasourceRequests =
        (resetCacheSettings env (some ds2)).maxConcurrentDatasourceRequests ∧
      (resetCacheSettings env (some ds1)).maxPagesInCache =
        (resetCacheSettings env (some ds2)).maxPagesInCache ∧
      (resetCacheSettings env (some ds1)).paginationOverflowSize =
        (resetCacheSettings env (some ds2)).paginationOverflowSize ∧
      (resetCacheSettings env (some ds1)).paginationInitialRowCount =
        (resetCacheSettings env (some ds2)).paginationInitialRowCount ∧
      (resetCacheSettings env (some ds1)).rowHeight =
        (resetCacheSettings env (some ds2)).rowHeight ∧
      (resetCacheSettings env (some ds1)).filterModel =
        (resetCacheSettings env (some ds2)).filterModel ∧
      (resetCacheSettings env (some ds1)).sortModel =
        (resetCacheSettings env (some ds2)).sortModel) ∧
    (∀ e ∈ checkForDeprecatedTrace ds1, isConsoleErrorEffect e = true) ∧
    ((setDatasource env s (some ds1)).2.filter (fun e => !(isConsoleErrorEffect e)) =
      (setDatasource env s (some ds2)).2.filter (fun e => !(isConsoleErrorEffect e))) := by
  refine ⟨?_, ?_, ?_⟩
  · rw [resetCacheSettings_eq, resetCacheSettings_eq]
    exact ⟨rfl, rfl, rfl, rfl, rfl, rfl, rfl, rfl⟩
  · intro e he
    have h0 := checkForDeprecatedTrace_console_only ds1
    rw [List.filter_eq_nil_iff] at h0
    simpa using h0 e he
  · have tr : ∀ ds : IDataSource, (setDatasource env s (some ds)).2 =
        checkForDeprecatedTrace ds ++ (reset env { s with datasource := some ds }).2 := by
      intro ds
      simp [setDatasource]
    rw [tr ds1, tr ds2, List.filter_append, List.filter_append,
      checkForDeprecatedTrace_console_only, checkForDeprecatedTrace_console_only]
    have hr : ∀ ds : IDataSource, (reset env { s with datasource := some ds }).2 =
        (if env.rowNodeIdFuncExists then [] else [Effect.selectionReset]) ++
          ((match s.virtualPageCache with
            | some _ => [Effect.cacheDestroyed]
            | none => []) ++
            [Effect.cacheCreated, Effect.dispatch GridEvent.modelUpdated]) := by
      intro ds
      cases hid : env.rowNodeIdFuncExists <;> cases hc : s.virtualPageCache <;>
        simp [reset, resetCache, hid, hc]
    rw [hr ds1, hr ds2]

/-- Witness for C9: two datasources agreeing on behaviour, one carrying a
deprecated `pageSize` field. -/
theorem deprecated_fields_never_influence_cache_witness :
    (plainDatasource 6).getRowsBehaviour =
      ({ getRowsBehaviour := 6, maxConcurrentRequests := none, maxPagesInCache := none,
         overflowSize := none, pageSize := some 25 } : IDataSource).getRowsBehaviour ∧
    (setDatasource defaultEnv (freshStateWith 6)
        (some (plainDatasource 6))).2.filter (fun e => !(isConsoleErrorEffect e)) =
      (setDatasource defaultEnv (freshStateWith 6)
        (some { getRowsBehaviour := 6, maxConcurrentRequests := none,
                maxPagesInCache := none, overflowSize := none,
                pageSize := some 25 })).2.filter (fun e => !(isConsoleErrorEffect e)) := by
  refine ⟨rfl, ?_⟩
  exact (deprecated_fields_never_influence_cache defaultEnv (freshStateWith 6)
    (plainDatasource 6)
    { getRowsBehaviour := 6, maxConcurrentRequests := none, maxPagesInCache := none,
      overflowSize := none, pageSize := some 25 } rfl).2.2

/-- C10: `insertItemsAtIndex`, `removeItems` and `addItems` only log a
message: the state — cache included — is returned unchanged for every
argument, and every row query answers the same before and after the call. -/
theorem mutating_stubs_leave_state_unchanged (s : ModelState) (index : Int)
    (items : List Nat) (rowNodes : List RowNode) :
    insertItemsAtIndex s index items = (s, [Effect.consoleLog "not yet supported"]) ∧
    removeItems s rowNodes = (s, [Effect.consoleLog "not yet supported"]) ∧
    addItems s items = (s, [Effect.consoleLog "not yet supported"]) ∧
    (∀ i : Int, getRow (insertItemsAtIndex s index items).1 i = getRow s i) ∧
    getRowCount (insertItemsAtIndex s index items).1 = getRowCount s ∧
    getRowCombinedHeight (removeItems s rowNodes).1 = getRowCombinedHeight s ∧
    (∀ p : Int, getRowIndexAtPixel (addItems s items).1 p = getRowIndexAtPixel s p) ∧
    forEachNodeCalls (insertItemsAtIndex s index items).1 = forEachNodeCalls s := by
  exact ⟨rfl, rfl, rfl, fun i => rfl, rfl, rfl, fun p => rfl, rfl⟩

end AgGrid
